import Mathlib

/-!
Shallow embedding of the lyrics-api request-handler layer.

The repository contains three route-handler variants:
* `src/index.js` — the SQLite ("restrictive schema") variant; embedded below
  at top level.
* the first document of `src/unnamed/part_000` — a near-identical copy of the
  SQLite variant (same handlers, plus a seed endpoint); the shared handlers are
  identical line for line, so the top-level definitions embed both.
* the second document of `src/unnamed/part_000` — the Postgres ("relaxed
  schema") variant; embedded in namespace `Pg`.

JavaScript-specific behaviour (truthiness, `Number()` coercion, destructuring
defaults, `?? null`) is modelled explicitly by the `JsNum` / `JStr` / `JNum`
types.
-/

/-- Result of the JavaScript coercion `Number(s)` applied to a path-parameter
string: an integral number, a finite non-integral number (e.g. `Number("3.5")`),
or `NaN` (e.g. `Number("abc")`).  A non-integral or `NaN` value is never equal
to an `INTEGER` key and fails `Number.isInteger`. -/
inductive JsNum where
  | int (n : Int)
  | frac
  | nan
deriving Repr, DecidableEq

/-- SQL equality test `<column> = ?` between an `INTEGER` column value and a
bound JavaScript number. -/
def JsNum.eqId : JsNum → Int → Bool
  | .int m, n => m == n
  | .frac, _ => false
  | .nan, _ => false

/-- The Postgres-variant guard `Number.isInteger(id) && id > 0`. -/
def JsNum.isPosInt : JsNum → Bool
  | .int n => 0 < n
  | .frac => false
  | .nan => false

/-- A string-typed JSON body field: absent (`undefined`), `null`, or a string
value. -/
inductive JStr where
  | undef
  | null
  | val (s : String)
deriving Repr, DecidableEq

/-- JavaScript truthiness of a string field (`!x` is the negation): `undefined`,
`null` and the empty string are falsy. -/
def JStr.truthy : JStr → Bool
  | .undef => false
  | .null => false
  | .val s => s ≠ ""

/-- The JavaScript expression `x ?? null`, mapping a field to the nullable
column value that gets bound: `undefined`/`null` become SQL `NULL`. -/
def JStr.orNull : JStr → Option String
  | .undef => none
  | .null => none
  | .val s => some s

/-- A number-typed JSON body field: absent, `null`, or a JavaScript number. -/
inductive JNum where
  | undef
  | null
  | js (v : JsNum)
deriving Repr, DecidableEq

/-- JavaScript truthiness of a numeric field: `undefined`, `null`, `0` and
`NaN` are falsy. -/
def JNum.truthy : JNum → Bool
  | .undef => false
  | .null => false
  | .js (.int n) => n ≠ 0
  | .js .frac => true
  | .js .nan => false

/-- `Number.isInteger(x)`: `some n` exactly when the field holds an integral
number `n`. -/
def JNum.asInt : JNum → Option Int
  | .js (.int n) => some n
  | _ => none

/-! ## SQLite-variant data model (`src/index.js`)

Schema: `Performers(PerformerId INTEGER PRIMARY KEY AUTOINCREMENT, Name TEXT
NOT NULL CHECK(length(Name) <= 100), Genre TEXT)` and `Lyrics(LyricId INTEGER
PRIMARY KEY AUTOINCREMENT, Words …, SongTitle …, Language TEXT NOT NULL,
SpotLink TEXT, ImageUrl TEXT, PreviewLink TEXT, PerformerId INTEGER NOT NULL
REFERENCES Performers ON DELETE RESTRICT)`. -/

/-- A row of the `Performers` table. -/
structure Performer where
  performerId : Int
  name : String
  genre : Option String
deriving Repr, DecidableEq

/-- A row of the `Lyrics` table. -/
structure Lyric where
  lyricId : Int
  words : String
  songTitle : String
  language : String
  spotLink : Option String
  imageUrl : Option String
  previewLink : Option String
  performerId : Int
deriving Repr, DecidableEq

/-- The SQLite database state, together with the next `AUTOINCREMENT` values
used for `lastInsertRowid`. -/
structure Store where
  performers : List Performer
  lyrics : List Lyric
  nextPerformerId : Int
  nextLyricId : Int
deriving Repr, DecidableEq

/-- `SELECT * FROM Performers WHERE PerformerId = ?` with an integer key
(`PerformerId` is the primary key, so at most one row matches). -/
def findPerformer (s : Store) (pid : Int) : Option Performer :=
  s.performers.find? (fun p => p.performerId == pid)

/-- The same lookup with a raw coerced path parameter bound. -/
def findPerformerJ (s : Store) (idp : JsNum) : Option Performer :=
  s.performers.find? (fun p => idp.eqId p.performerId)

/-- `SELECT * FROM Lyrics WHERE LyricId = ?` with an integer key. -/
def findLyric (s : Store) (lid : Int) : Option Lyric :=
  s.lyrics.find? (fun l => l.lyricId == lid)

/-- The same lookup with a raw coerced path parameter bound. -/
def findLyricJ (s : Store) (idp : JsNum) : Option Lyric :=
  s.lyrics.find? (fun l => idp.eqId l.lyricId)

/-! ## Postgres-variant data model (second document of `src/unnamed/part_000`)

The managed schema has `performers(performer_id, name)` (no genre) and
`lyrics(lyric_id, performer_id, title, body, language, spotlink, classic)`. -/

namespace Pg

/-- A row of the Postgres `performers` table. -/
structure Performer where
  performerId : Int
  name : String
deriving Repr, DecidableEq

/-- A row of the Postgres `lyrics` table. -/
structure Lyric where
  lyricId : Int
  performerId : Int
  title : String
  body : Option String
  language : Option String
  spotlink : Option String
  classic : Option Bool
deriving Repr, DecidableEq

/-- The Postgres database state. -/
structure Store where
  performers : List Performer
  lyrics : List Lyric
  nextLyricId : Int
deriving Repr, DecidableEq

end Pg

/-! ## Responses -/

/-- The JSON body shapes the handlers produce. `msg`/`errB` are the one-field
`{message: …}` / `{error: …}` objects; `errDetail` is the Postgres error
middleware's `{error: …, detail: …}`; `emptyB` is a bodyless `.send()`/`.end()`;
`nullB` is a JSON `null` body.  Row payloads are carried as the rows
themselves: the `mapLyric`/`mapPerformer` helpers of the source are bijective
field renamings (`LyricId ↦ lyricId`, …), so the row structures double as the
mapped payloads. -/
inductive RespBody where
  | msg (m : String)
  | errB (m : String)
  | errDetail (e d : String)
  | performerB (p : Performer)
  | lyricB (l : Lyric)
  | joinedB (row : Lyric × Performer)
  | lyricList (ls : List Lyric)
  | joinedList (rows : List (Lyric × Performer))
  | pgLyricB (l : Pg.Lyric)
  | pgLyricList (ls : List Pg.Lyric)
  | nullB
  | emptyB
deriving Repr, DecidableEq

/-- An HTTP response: status code and JSON body. -/
structure Response where
  status : Nat
  body : RespBody
deriving Repr, DecidableEq

/-! ## GET /api/lyrics (SQLite variant, `src/index.js` lines 339–357)

`SELECT l.*, p.… FROM Lyrics l JOIN Performers p ON p.PerformerId =
l.PerformerId ORDER BY l.LyricId DESC`, every row mapped and joined with its
performer.  The handler reads neither `req.query.page` nor any filter
parameter. -/

/-- The rows produced by the `JOIN` before ordering: each lyric paired with its
(unique, by primary key) performer; lyrics whose performer id matches no
performer row produce no joined row. -/
def joinRows (s : Store) : List (Lyric × Performer) :=
  s.lyrics.filterMap (fun l => (findPerformer s l.performerId).map (fun p => (l, p)))

/-- The comparison realising `ORDER BY l.LyricId DESC`. -/
def lyricDesc (a b : Lyric × Performer) : Prop :=
  b.1.lyricId ≤ a.1.lyricId

instance : DecidableRel lyricDesc := fun a b =>
  inferInstanceAs (Decidable (b.1.lyricId ≤ a.1.lyricId))

instance : IsTotal (Lyric × Performer) lyricDesc :=
  ⟨fun a b => (le_total b.1.lyricId a.1.lyricId).elim Or.inl Or.inr⟩

instance : IsTrans (Lyric × Performer) lyricDesc :=
  ⟨fun _ _ _ h1 h2 => le_trans h2 h1⟩

/-- The listing query result: joined rows ordered by `LyricId DESC`. -/
def listLyrics (s : Store) : List (Lyric × Performer) :=
  (joinRows s).insertionSort lyricDesc

/-- The query string of a listing request.  The handler never reads these
parameters; they are part of the request nonetheless. -/
structure ListQuery where
  page : Option String
  pageSize : Option String
deriving Repr, DecidableEq

/-- The `GET /api/lyrics` handler: always the full ordered joined listing,
status 200; the query parameters are ignored. -/
def getLyricsHandler (_q : ListQuery) (s : Store) : Response :=
  ⟨200, .joinedList (listLyrics s)⟩

/-! ## Remaining SQLite-variant routes -/

/-- The validation test `!f || f.length > maxLen` applied to a string body
field (reproducing the JavaScript short-circuit: absent, `null` and empty
values are falsy; otherwise the length bound is checked). -/
def strInvalid (maxLen : Nat) : JStr → Bool
  | .undef => true
  | .null => true
  | .val s => s == "" || s.length > maxLen

/-- The string value of a field known to be a string (used only on branches
where validation has already established `JStr.val`). -/
def JStr.str : JStr → String
  | .val s => s
  | _ => ""

/-- A store statement issued by a handler, at table granularity. -/
inductive StoreOp where
  | selectPerformers
  | selectLyrics
  | insertPerformers
  | insertLyrics
  | updatePerformers
  | updateLyrics
  | deletePerformers
  | deleteLyrics
deriving Repr, DecidableEq

/-- Whether a statement mutates the store. -/
def StoreOp.isWrite : StoreOp → Bool
  | .selectPerformers => false
  | .selectLyrics => false
  | _ => true

/-- The outcome of running one SQLite-variant handler: the response, the store
afterwards, and the sequence of store statements issued. -/
structure HandlerOut where
  resp : Response
  store : Store
  trace : List StoreOp
deriving Repr, DecidableEq

/-- The JSON body of a performer create/update request. -/
structure PerformerBody where
  name : JStr
  genre : JStr
deriving Repr, DecidableEq

/-- `POST /api/performers` (`src/index.js` lines 277–290): reject when
`!name || name.length > 100`, otherwise insert and re-read the created row. -/
def postPerformer (b : PerformerBody) (s : Store) : HandlerOut :=
  match b.name with
  | .val n =>
      if n == "" || n.length > 100 then
        ⟨⟨400, .msg "name is verplicht (<= 100 chars)"⟩, s, []⟩
      else
        let p : Performer := ⟨s.nextPerformerId, n, b.genre.orNull⟩
        let s' : Store :=
          { s with performers := s.performers ++ [p],
                   nextPerformerId := s.nextPerformerId + 1 }
        match findPerformer s' s.nextPerformerId with
        | some created => ⟨⟨201, .performerB created⟩, s', [.insertPerformers, .selectPerformers]⟩
        | none => ⟨⟨201, .nullB⟩, s', [.insertPerformers, .selectPerformers]⟩
  | _ => ⟨⟨400, .msg "name is verplicht (<= 100 chars)"⟩, s, []⟩

/-- `PUT /api/performers/:id` (`src/index.js` lines 292–313): first a
`SELECT 1` existence check (404 when absent), then the same name validation as
create, then `UPDATE` and a re-read. -/
def putPerformer (idp : JsNum) (b : PerformerBody) (s : Store) : HandlerOut :=
  match findPerformerJ s idp with
  | none => ⟨⟨404, .msg "Performer not found"⟩, s, [.selectPerformers]⟩
  | some _ =>
    match b.name with
    | .val n =>
        if n == "" || n.length > 100 then
          ⟨⟨400, .msg "name is verplicht (<= 100 chars)"⟩, s, [.selectPerformers]⟩
        else
          let s' : Store :=
            { s with performers := s.performers.map (fun p =>
                if idp.eqId p.performerId then { p with name := n, genre := b.genre.orNull }
                else p) }
          let resp : Response :=
            match findPerformerJ s' idp with
            | some updated => ⟨200, .performerB updated⟩
            | none => ⟨200, .nullB⟩
          ⟨resp, s', [.selectPerformers, .updatePerformers, .selectPerformers]⟩
    | _ => ⟨⟨400, .msg "name is verplicht (<= 100 chars)"⟩, s, [.selectPerformers]⟩

/-- `DELETE /api/performers/:id` (`src/index.js` lines 315–336): a single
`DELETE` statement.  SQLite's `ON DELETE RESTRICT` (declared in this file's
schema) makes the statement fail when a deleted row is still referenced by a
lyric; the handler classifies that failure as 409 and the store is unchanged.
Otherwise `info.changes == 0` yields 404, else 204. -/
def deletePerformer (idp : JsNum) (s : Store) : HandlerOut :=
  let victims := s.performers.filter (fun p => idp.eqId p.performerId)
  if victims.any (fun p => s.lyrics.any (fun l => l.performerId == p.performerId)) then
    ⟨⟨409, .msg "Kan performer niet verwijderen: er zijn nog gekoppelde lyrics"⟩, s,
      [.deletePerformers]⟩
  else if victims.isEmpty then
    ⟨⟨404, .msg "Performer not found"⟩, s, [.deletePerformers]⟩
  else
    ⟨⟨204, .emptyB⟩,
      { s with performers := s.performers.filter (fun p => !idp.eqId p.performerId) },
      [.deletePerformers]⟩

/-- `GET /api/lyrics/:id` (`src/index.js` lines 359–377): the coerced id is
bound directly into the joined query — there is no validation of the path
parameter — and a missing row yields 404. -/
def getLyricById (idp : JsNum) (s : Store) : Response :=
  match (findLyricJ s idp).bind (fun l => (findPerformer s l.performerId).map (fun p => (l, p))) with
  | none => ⟨404, .msg "Lyric not found"⟩
  | some row => ⟨200, .joinedB row⟩

/-- `ORDER BY LyricId DESC` on bare lyric rows. -/
def lyricRowDesc (a b : Lyric) : Prop :=
  b.lyricId ≤ a.lyricId

instance : DecidableRel lyricRowDesc := fun a b =>
  inferInstanceAs (Decidable (b.lyricId ≤ a.lyricId))

/-- `GET /api/performers/:id/lyrics` (`src/index.js` lines 379–385):
`SELECT * FROM Lyrics WHERE PerformerId = ? ORDER BY LyricId DESC`, always
status 200, with no check that the performer exists. -/
def getPerformerLyrics (idp : JsNum) (s : Store) : Response :=
  ⟨200, .lyricList ((s.lyrics.filter (fun l => idp.eqId l.performerId)).insertionSort lyricRowDesc)⟩

/-- The JSON body of a lyric create/update request (SQLite variant). -/
structure LyricBody where
  words : JStr
  songTitle : JStr
  language : JStr
  spotLink : JStr
  imageUrl : JStr
  previewLink : JStr
  performerId : JNum
deriving Repr, DecidableEq

/-- `POST /api/lyrics` (`src/index.js` lines 387–438): field validations in
source order, then the referential-integrity `SELECT 1` on the performer
(404 when absent), then insert and re-read. -/
def postLyric (b : LyricBody) (s : Store) : HandlerOut :=
  if strInvalid 500 b.words then
    ⟨⟨400, .msg "words is verplicht (<= 500 chars)"⟩, s, []⟩
  else if strInvalid 100 b.songTitle then
    ⟨⟨400, .msg "songTitle is verplicht (<= 100 chars)"⟩, s, []⟩
  else if !b.language.truthy then
    ⟨⟨400, .msg "language is verplicht"⟩, s, []⟩
  else
    match b.performerId.asInt with
    | none => ⟨⟨400, .msg "performerId is verplicht (integer)"⟩, s, []⟩
    | some pid =>
      match findPerformer s pid with
      | none => ⟨⟨404, .msg "Performer bestaat niet"⟩, s, [.selectPerformers]⟩
      | some _ =>
        let row : Lyric :=
          ⟨s.nextLyricId, b.words.str, b.songTitle.str, b.language.str,
            b.spotLink.orNull, b.imageUrl.orNull, b.previewLink.orNull, pid⟩
        let s' : Store := { s with lyrics := s.lyrics ++ [row], nextLyricId := s.nextLyricId + 1 }
        let resp : Response :=
          match findLyric s' s.nextLyricId with
          | some created => ⟨201, .lyricB created⟩
          | none => ⟨201, .nullB⟩
        ⟨resp, s', [.selectPerformers, .insertLyrics, .selectLyrics]⟩

/-- The destructuring default `words = existing.Words` for a `NOT NULL` string
column: only an absent (`undefined`) body field falls back to the stored
value; an explicit `null` stays `null`. -/
def JStr.mergeStr : JStr → String → JStr
  | .undef, ex => .val ex
  | j, _ => j

/-- The destructuring default for a nullable string column: an absent field
falls back to the stored value (`null` when the column is `NULL`). -/
def JStr.mergeOpt : JStr → Option String → JStr
  | .undef, some ex => .val ex
  | .undef, none => .null
  | j, _ => j

/-- The destructuring default `performerId = existing.PerformerId`. -/
def JNum.mergeInt : JNum → Int → JNum
  | .undef, ex => .js (.int ex)
  | j, _ => j

/-- The merged field values of `PUT /api/lyrics/:id`: each field absent from
the body defaults to the existing row's value; present fields (including
explicit `null`s) are taken from the body. -/
def mergeLyric (ex : Lyric) (b : LyricBody) : LyricBody :=
  { words := b.words.mergeStr ex.words
  , songTitle := b.songTitle.mergeStr ex.songTitle
  , language := b.language.mergeStr ex.language
  , spotLink := b.spotLink.mergeOpt ex.spotLink
  , imageUrl := b.imageUrl.mergeOpt ex.imageUrl
  , previewLink := b.previewLink.mergeOpt ex.previewLink
  , performerId := b.performerId.mergeInt ex.performerId }

/-- The effect of the `UPDATE Lyrics SET … WHERE LyricId = ?` statement on one
matching row: every non-key column is set from the merged values (the key is
not in the `SET` list and keeps the row's value). -/
def updatedLyric (l : Lyric) (m : LyricBody) (pid : Int) : Lyric :=
  { l with words := m.words.str, songTitle := m.songTitle.str,
           language := m.language.str, spotLink := m.spotLink.orNull,
           imageUrl := m.imageUrl.orNull, previewLink := m.previewLink.orNull,
           performerId := pid }

/-- `PUT /api/lyrics/:id` (`src/index.js` lines 440–495): read the existing
row (404 when absent), merge body fields over it, validate the merged values
exactly as create does, check the referenced performer (404 when absent), then
`UPDATE` every matching row and re-read. -/
def putLyric (idp : JsNum) (b : LyricBody) (s : Store) : HandlerOut :=
  match findLyricJ s idp with
  | none => ⟨⟨404, .msg "Lyric not found"⟩, s, [.selectLyrics]⟩
  | some ex =>
    let m := mergeLyric ex b
    if strInvalid 500 m.words then
      ⟨⟨400, .msg "words is verplicht (<= 500 chars)"⟩, s, [.selectLyrics]⟩
    else if strInvalid 100 m.songTitle then
      ⟨⟨400, .msg "songTitle is verplicht (<= 100 chars)"⟩, s, [.selectLyrics]⟩
    else if !m.language.truthy then
      ⟨⟨400, .msg "language is verplicht"⟩, s, [.selectLyrics]⟩
    else
      match m.performerId.asInt with
      | none => ⟨⟨400, .msg "performerId is verplicht (integer)"⟩, s, [.selectLyrics]⟩
      | some pid =>
        match findPerformer s pid with
        | none => ⟨⟨404, .msg "Performer bestaat niet"⟩, s, [.selectLyrics, .selectPerformers]⟩
        | some _ =>
          let s' : Store :=
            { s with lyrics := s.lyrics.map (fun l =>
                if idp.eqId l.lyricId then updatedLyric l m pid else l) }
          let resp : Response :=
            match findLyricJ s' idp with
            | some updated => ⟨200, .lyricB updated⟩
            | none => ⟨200, .nullB⟩
          ⟨resp, s', [.selectLyrics, .selectPerformers, .updateLyrics, .selectLyrics]⟩

/-! ## Error middleware -/

/-- A JavaScript error object reaching an error middleware: its (possibly
absent) `message` property and its `String(err)` rendering. -/
structure JsError where
  message : Option String
  asString : String
deriving Repr, DecidableEq

/-- The SQLite variant's catch-all error middleware (`src/index.js` lines
515–518): a fixed generic body, independent of the error. -/
def errorHandlerSqlite (_e : JsError) : Response :=
  ⟨500, .msg "Internal server error"⟩

/-! ## Postgres-variant routes (second document of `src/unnamed/part_000`) -/

namespace Pg

/-- A boolean-ish JSON body field (the `classic` flag). -/
inductive JBool where
  | undef
  | null
  | bool (b : Bool)
deriving Repr, DecidableEq

/-- The `classic = null` destructuring default followed by binding: absent and
`null` become SQL `NULL`. -/
def JBool.orNull : JBool → Option Bool
  | .bool b => some b
  | _ => none

/-- The JSON body of the Postgres lyric-creation request. -/
structure LyricBody where
  performerId : JNum
  title : JStr
  body : JStr
  language : JStr
  spotLink : JStr
  classic : JBool
deriving Repr, DecidableEq

/-- Modelled from the spec: the managed Postgres schema itself is not in the
repository.  Per §3 the backing store enforces the lyric→performer foreign key
as a backstop, rejecting an insert whose `performer_id` resolves to no
performer row with error code 23503 (`none` here); a successful insert appends
the row. -/
def insertLyric (s : Store) (row : Lyric) : Option Store :=
  if s.performers.any (fun p => p.performerId == row.performerId) then
    some { s with lyrics := s.lyrics ++ [row], nextLyricId := s.nextLyricId + 1 }
  else
    none

/-- The Postgres variant's catch-all error middleware (`src/unnamed/part_000`
lines 738–743): status 500 with `{error: "Internal Server Error", detail:
err.message ?? String(err)}`. -/
def errorHandler (e : JsError) : Response :=
  ⟨500, .errDetail "Internal Server Error" (e.message.getD e.asString)⟩

/-- `POST /api/lyrics` (Postgres variant, `src/unnamed/part_000` lines
644–680): reject when `!performerId || !title`, insert with `RETURNING`, map a
23503 foreign-key failure to 409; any other store failure flows to the error
middleware.  A truthy non-integral `performerId` is rejected by the store with
a non-FK failure (modelled from the spec's "any other store failure" clause). -/
def postLyric (b : LyricBody) (s : Store) : Response × Store :=
  if !b.performerId.truthy || !b.title.truthy then
    (⟨400, .errB "performerId and title are required"⟩, s)
  else
    match b.performerId.asInt with
    | some pid =>
        let row : Lyric :=
          ⟨s.nextLyricId, pid, b.title.str, b.body.orNull, b.language.orNull,
            b.spotLink.orNull, b.classic.orNull⟩
        match insertLyric s row with
        | some s' => (⟨201, .pgLyricB row⟩, s')
        | none => (⟨409, .errB "Unknown performerId (FK violation)"⟩, s)
    | none =>
        (errorHandler ⟨some "invalid input syntax for type integer", "error"⟩, s)

/-- `GET /api/lyrics/:id` (Postgres variant, `src/unnamed/part_000` lines
703–732): `if (!Number.isInteger(id) || id <= 0)` → 400; then a keyed select,
404 when no row. -/
def getLyricById (idp : JsNum) (s : Store) : Response :=
  match idp with
  | .int n =>
      if n ≤ 0 then ⟨400, .errB "Invalid lyric id"⟩
      else
        match s.lyrics.find? (fun l => l.lyricId == n) with
        | none => ⟨404, .errB "Lyric not found"⟩
        | some row => ⟨200, .pgLyricB row⟩
  | _ => ⟨400, .errB "Invalid lyric id"⟩

/-- `order by lower(title)`. -/
def titleAsc (a b : Lyric) : Prop :=
  a.title.toLower ≤ b.title.toLower

instance : DecidableRel titleAsc := fun a b =>
  inferInstanceAs (Decidable (a.title.toLower ≤ b.title.toLower))

/-- `GET /api/performers/:id/lyrics` (Postgres variant, `src/unnamed/part_000`
lines 683–700): `select … from lyrics where performer_id = $1 order by
lower(title)`, always status 200, with no check that the performer exists.
The embedding covers integral path parameters (a non-integral coercion is
rejected by the store driver, not answered with a listing). -/
def getPerformerLyrics (pid : Int) (s : Store) : Response :=
  ⟨200, .pgLyricList ((s.lyrics.filter (fun l => l.performerId == pid)).insertionSort titleAsc)⟩

end Pg

/-- The rows in a listing response body (empty for non-listing bodies). -/
def respRows : Response → List (Lyric × Performer)
  | ⟨_, .joinedList rows⟩ => rows
  | _ => []

/-- Concrete SQLite store: the seed data of `src/index.js` (one performer would
do; two lyrics, ids 1 and 2, both referencing performer 1). -/
def exStore2 : Store :=
  { performers := [⟨1, "Nirvana", some "Grunge"⟩]
  , lyrics :=
      [ ⟨1, "Here we are now, entertain us...", "Smells Like Teen Spirit", "en", none, none, none, 1⟩
      , ⟨2, "Hello, it's me...", "Hello", "en", none, none, none, 1⟩ ]
  , nextPerformerId := 2
  , nextLyricId := 3 }

/-- Concrete SQLite store with three matching lyrics (ids 1, 2, 3) for one
performer. -/
def exStore3 : Store :=
  { performers := [⟨1, "Nirvana", some "Grunge"⟩]
  , lyrics :=
      [ ⟨1, "a", "One", "en", none, none, none, 1⟩
      , ⟨2, "b", "Two", "en", none, none, none, 1⟩
      , ⟨3, "c", "Three", "en", none, none, none, 1⟩ ]
  , nextPerformerId := 2
  , nextLyricId := 4 }

/-- Concrete Postgres store: one performer (id 1) with one lyric (id 1). -/
def exPgStore : Pg.Store :=
  { performers := [⟨1, "Nirvana"⟩]
  , lyrics := [⟨1, 1, "Smells Like Teen Spirit", some "Here we are now", some "en", none, none⟩]
  , nextLyricId := 2 }

/-- A concrete store failure carrying internal connection detail. -/
def exErr : JsError :=
  ⟨some "connect ECONNREFUSED db.internal:5432",
    "Error: connect ECONNREFUSED db.internal:5432"⟩

/-- Whether a lyric body fails any of the four field validations of the
lyric create/update handlers (in source order: words, songTitle, language,
performerId). -/
def lyricFieldsInvalid (b : LyricBody) : Bool :=
  strInvalid 500 b.words || strInvalid 100 b.songTitle ||
    !b.language.truthy || b.performerId.asInt.isNone

/-- C1, counterexample: on a store holding lyrics 1 and 2, the listing returns
ids `[2, 1]` — the result of `ORDER BY l.LyricId DESC` — which is not ordered
ascending by identifier. -/
theorem c1_counterexample :
    (listLyrics exStore2).map (fun r => r.1.lyricId) = [2, 1] ∧
      ¬ List.Sorted (fun a b : Lyric × Performer => a.1.lyricId ≤ b.1.lyricId)
          (listLyrics exStore2) := by
  decide

/-- C1, amended: for every state of the store, the lyric listing returns
exactly the matching (joined) lyric rows — a permutation of the join — ordered
DESCENDING by their identifier (`ORDER BY l.LyricId DESC`). -/
theorem c1_amended (s : Store) :
    List.Sorted lyricDesc (listLyrics s) ∧ List.Perm (listLyrics s) (joinRows s) := by
  exact ⟨List.sorted_insertionSort lyricDesc (joinRows s),
         List.perm_insertionSort lyricDesc (joinRows s)⟩

/-- C2, counterexample: requesting `page=2`, `pageSize=2` over a store with
three matching lyrics returns all three rows, not the single remaining row the
claimed pagination would produce — the handler has no pagination at all. -/
theorem c2_counterexample :
    (respRows (getLyricsHandler ⟨some "2", some "2"⟩ exStore3)).length = 3 ∧
      (3 : Nat) ≠ 1 := by
  decide

/-- C2, amended: the listing handler ignores the `page` and `pageSize` query
parameters entirely — any two query strings produce the identical response —
and always returns every matching row (no offset, no page-size limit) with
status 200. -/
theorem c2_amended (q q' : ListQuery) (s : Store) :
    getLyricsHandler q s = getLyricsHandler q' s ∧
      getLyricsHandler q s = ⟨200, .joinedList (listLyrics s)⟩ ∧
      (listLyrics s).length = (joinRows s).length := by
  exact ⟨rfl, rfl, (List.perm_insertionSort lyricDesc (joinRows s)).length_eq⟩

/-- C3, counterexample: `PUT /api/performers/1` with the invalid body
`{name: ""}` against a store in which performer 1 exists does return 400, but
only after issuing the `SELECT 1` existence query — the trace is not empty, so
the bad-request is not returned before any store access. -/
theorem c3_counterexample :
    (putPerformer (.int 1) ⟨.val "", .undef⟩ exStore2).resp.status = 400 ∧
      (putPerformer (.int 1) ⟨.val "", .undef⟩ exStore2).trace = [.selectPerformers] ∧
      [StoreOp.selectPerformers] ≠ ([] : List StoreOp) := by
  decide

/-- C3, amended: validation precedes every store write.  The POST handlers
make no store access at all on invalid input; the PUT handlers issue exactly
the initial existence read before returning 400 on an invalid body, and in
every case the store is unchanged. -/
theorem c3_amended (idp idp2 : JsNum) (pb : PerformerBody) (lb lb2 : LyricBody)
    (s : Store) (p : Performer) (ex : Lyric)
    (hpb : strInvalid 100 pb.name = true)
    (hlb : lyricFieldsInvalid lb = true)
    (hpx : findPerformerJ s idp = some p)
    (hex : findLyricJ s idp2 = some ex)
    (hmb : lyricFieldsInvalid (mergeLyric ex lb2) = true) :
    ((postPerformer pb s).resp.status = 400 ∧ (postPerformer pb s).store = s ∧
        (postPerformer pb s).trace = []) ∧
      ((postLyric lb s).resp.status = 400 ∧ (postLyric lb s).store = s ∧
        (postLyric lb s).trace = []) ∧
      ((putPerformer idp pb s).resp.status = 400 ∧ (putPerformer idp pb s).store = s ∧
        (putPerformer idp pb s).trace = [.selectPerformers]) ∧
      ((putLyric idp2 lb2 s).resp.status = 400 ∧ (putLyric idp2 lb2 s).store = s ∧
        (putLyric idp2 lb2 s).trace = [.selectLyrics]) := by
  refine ⟨?_, ?_, ?_, ?_⟩
  · cases hn : pb.name with
    | undef => simp [postPerformer, hn]
    | null => simp [postPerformer, hn]
    | val n =>
        rw [hn] at hpb
        simp only [strInvalid] at hpb
        simp [postPerformer, hn, hpb]
  · simp only [lyricFieldsInvalid, Bool.or_eq_true] at hlb
    rcases hlb with ((h | h) | h) | h
    · simp [postLyric, h]
    · by_cases h1 : strInvalid 500 lb.words = true
      · simp [postLyric, h1]
      · simp only [Bool.not_eq_true] at h1
        simp [postLyric, h1, h]
    · by_cases h1 : strInvalid 500 lb.words = true
      · simp [postLyric, h1]
      · by_cases h2 : strInvalid 100 lb.songTitle = true
        · simp only [Bool.not_eq_true] at h1
          simp [postLyric, h1, h2]
        · simp only [Bool.not_eq_true] at h1 h2
          simp [postLyric, h1, h2, h]
    · by_cases h1 : strInvalid 500 lb.words = true
      · simp [postLyric, h1]
      · by_cases h2 : strInvalid 100 lb.songTitle = true
        · simp only [Bool.not_eq_true] at h1
          simp [postLyric, h1, h2]
        · by_cases h3 : lb.language.truthy = true
          · simp only [Bool.not_eq_true] at h1 h2
            simp only [Option.isNone_iff_eq_none] at h
            simp [postLyric, h1, h2, h3, h]
          · simp only [Bool.not_eq_true] at h1 h2 h3
            simp [postLyric, h1, h2, h3]
  · cases hn : pb.name with
    | undef => simp [putPerformer, hpx, hn]
    | null => simp [putPerformer, hpx, hn]
    | val n =>
        rw [hn] at hpb
        simp only [strInvalid] at hpb
        simp [putPerformer, hpx, hn, hpb]
  · simp only [lyricFieldsInvalid, Bool.or_eq_true] at hmb
    rcases hmb with ((h | h) | h) | h
    · simp [putLyric, hex, h]
    · by_cases h1 : strInvalid 500 (mergeLyric ex lb2).words = true
      · simp [putLyric, hex, h1]
      · simp only [Bool.not_eq_true] at h1
        simp [putLyric, hex, h1, h]
    · by_cases h1 : strInvalid 500 (mergeLyric ex lb2).words = true
      · simp [putLyric, hex, h1]
      · by_cases h2 : strInvalid 100 (mergeLyric ex lb2).songTitle = true
        · simp only [Bool.not_eq_true] at h1
          simp [putLyric, hex, h1, h2]
        · simp only [Bool.not_eq_true] at h1 h2
          simp [putLyric, hex, h1, h2, h]
    · by_cases h1 : strInvalid 500 (mergeLyric ex lb2).words = true
      · simp [putLyric, hex, h1]
      · by_cases h2 : strInvalid 100 (mergeLyric ex lb2).songTitle = true
        · simp only [Bool.not_eq_true] at h1
          simp [putLyric, hex, h1, h2]
        · by_cases h3 : (mergeLyric ex lb2).language.truthy = true
          · simp only [Bool.not_eq_true] at h1 h2
            simp only [Option.isNone_iff_eq_none] at h
            simp [putLyric, hex, h1, h2, h3, h]
          · simp only [Bool.not_eq_true] at h1 h2 h3
            simp [putLyric, hex, h1, h2, h3]

/-- C3, witness: the amended statement instantiated — invalid bodies against
the concrete two-lyric store leave it unchanged with a 400 status and only
the existence read in the PUT traces. -/
theorem c3_amended_witness :
    ((postPerformer ⟨.val "", .undef⟩ exStore2).resp.status = 400 ∧
        (postPerformer ⟨.val "", .undef⟩ exStore2).store = exStore2 ∧
        (postPerformer ⟨.val "", .undef⟩ exStore2).trace = []) ∧
      ((postLyric ⟨.undef, .undef, .undef, .undef, .undef, .undef, .undef⟩ exStore2).resp.status = 400 ∧
        (postLyric ⟨.undef, .undef, .undef, .undef, .undef, .undef, .undef⟩ exStore2).store = exStore2 ∧
        (postLyric ⟨.undef, .undef, .undef, .undef, .undef, .undef, .undef⟩ exStore2).trace = []) ∧
      ((putPerformer (.int 1) ⟨.val "", .undef⟩ exStore2).resp.status = 400 ∧
        (putPerformer (.int 1) ⟨.val "", .undef⟩ exStore2).store = exStore2 ∧
        (putPerformer (.int 1) ⟨.val "", .undef⟩ exStore2).trace = [.selectPerformers]) ∧
      ((putLyric (.int 1) ⟨.val "", .undef, .undef, .undef, .undef, .undef, .undef⟩ exStore2).resp.status = 400 ∧
        (putLyric (.int 1) ⟨.val "", .undef, .undef, .undef, .undef, .undef, .undef⟩ exStore2).store = exStore2 ∧
        (putLyric (.int 1) ⟨.val "", .undef, .undef, .undef, .undef, .undef, .undef⟩ exStore2).trace = [.selectLyrics]) :=
  c3_amended (.int 1) (.int 1) ⟨.val "", .undef⟩
    ⟨.undef, .undef, .undef, .undef, .undef, .undef, .undef⟩
    ⟨.val "", .undef, .undef, .undef, .undef, .undef, .undef⟩
    exStore2 ⟨1, "Nirvana", some "Grunge"⟩
    ⟨1, "Here we are now, entertain us...", "Smells Like Teen Spirit", "en", none, none, none, 1⟩
    (by decide) (by decide) (by decide) (by decide) (by decide)

/-- C4, counterexample: a whitespace-only name `"   "` is truthy and within
the length bound, so `POST /api/performers` accepts it with 201 and writes a
row whose name is the untrimmed whitespace — the claimed rejection of
whitespace-only-after-trimming names does not happen. -/
theorem c4_counterexample :
    (postPerformer ⟨.val "   ", .undef⟩ exStore2).resp.status = 201 ∧
      (postPerformer ⟨.val "   ", .undef⟩ exStore2).store.performers.length =
        exStore2.performers.length + 1 ∧
      (postPerformer ⟨.val "   ", .undef⟩ exStore2).store.performers.getLast? =
        some ⟨2, "   ", none⟩ ∧
      (201 : Nat) ≠ 400 := by
  decide

/-- C4, amended: `POST /api/performers` rejects a name that is absent, `null`,
the empty string, or longer than 100 characters with a 400 validation error
and no store access (hence no row written); names are not trimmed, so a
whitespace-only non-empty name is accepted. -/
theorem c4_amended (pb : PerformerBody) (s : Store)
    (hpb : strInvalid 100 pb.name = true) :
    (postPerformer pb s).resp =
        ⟨400, .msg "name is verplicht (<= 100 chars)"⟩ ∧
      (postPerformer pb s).store = s ∧ (postPerformer pb s).trace = [] := by
  cases hn : pb.name with
  | undef => simp [postPerformer, hn]
  | null => simp [postPerformer, hn]
  | val n =>
      rw [hn] at hpb
      simp only [strInvalid] at hpb
      simp [postPerformer, hn, hpb]

/-- C4, witness: the amended statement at a 101-character name against the
concrete store. -/
theorem c4_amended_witness :
    (postPerformer ⟨.val (String.mk (List.replicate 101 'a')), .undef⟩ exStore2).resp =
        ⟨400, .msg "name is verplicht (<= 100 chars)"⟩ ∧
      (postPerformer ⟨.val (String.mk (List.replicate 101 'a')), .undef⟩ exStore2).store = exStore2 ∧
      (postPerformer ⟨.val (String.mk (List.replicate 101 'a')), .undef⟩ exStore2).trace = [] :=
  c4_amended ⟨.val (String.mk (List.replicate 101 'a')), .undef⟩ exStore2 (by decide)

/-- C5, counterexample: the SQLite-variant `GET /api/lyrics/:id` performs no
id validation — a non-numeric id (`Number` coercion yields `NaN`) is bound
into the query, matches no row, and the handler answers 404 "Lyric not
found", not 400. -/
theorem c5_counterexample :
    getLyricById .nan exStore2 = ⟨404, .msg "Lyric not found"⟩ ∧ (404 : Nat) ≠ 400 := by
  decide

/-- C5, amended: only the Postgres-variant `GET /api/lyrics/:id` rejects an id
that does not parse as a positive integer with 400; the SQLite variant treats
any non-integral id as not-found (404) for every store state. -/
theorem c5_amended (idp : JsNum) (s : Store) (ps : Pg.Store)
    (hbad : idp.isPosInt = false) :
    (Pg.getLyricById idp ps).status = 400 ∧
      getLyricById .nan s = ⟨404, .msg "Lyric not found"⟩ ∧
      getLyricById .frac s = ⟨404, .msg "Lyric not found"⟩ := by
  refine ⟨?_, ?_, ?_⟩
  · cases idp with
    | int n =>
        simp only [JsNum.isPosInt, decide_eq_false_iff_not, not_lt] at hbad
        simp [Pg.getLyricById, hbad]
    | frac => simp [Pg.getLyricById]
    | nan => simp [Pg.getLyricById]
  · have h1 : findLyricJ s .nan = none := by
      simp [findLyricJ, List.find?_eq_none, JsNum.eqId]
    simp [getLyricById, h1]
  · have h1 : findLyricJ s .frac = none := by
      simp [findLyricJ, List.find?_eq_none, JsNum.eqId]
    simp [getLyricById, h1]

/-- C5, witness: the amended statement at the non-numeric id `NaN` against the
concrete stores. -/
theorem c5_amended_witness :
    (Pg.getLyricById .nan exPgStore).status = 400 ∧
      getLyricById .nan exStore2 = ⟨404, .msg "Lyric not found"⟩ ∧
      getLyricById .frac exStore2 = ⟨404, .msg "Lyric not found"⟩ :=
  c5_amended .nan exStore2 exPgStore (by decide)

/-- C6: creating a lyric with a well-formed body whose performerId is a
positive-style integer resolving to no performer yields 404 in the SQLite
variant (pre-insert referential check) and 409 in the Postgres variant (the
store's foreign-key backstop, classified by error code 23503); in both cases
the store is unchanged — never a success status, never a 500. -/
theorem c6_unknown_performer (s : Store) (ps : Pg.Store) (pid : Int)
    (w t lang : String)
    (hw : strInvalid 500 (.val w) = false)
    (ht : strInvalid 100 (.val t) = false)
    (hlang : (JStr.val lang).truthy = true)
    (hnz : pid ≠ 0)
    (hmiss : findPerformer s pid = none)
    (hpgmiss : ∀ p ∈ ps.performers, p.performerId ≠ pid) :
    (postLyric ⟨.val w, .val t, .val lang, .undef, .undef, .undef, .js (.int pid)⟩ s).resp =
        ⟨404, .msg "Performer bestaat niet"⟩ ∧
      (postLyric ⟨.val w, .val t, .val lang, .undef, .undef, .undef, .js (.int pid)⟩ s).store = s ∧
      (postLyric ⟨.val w, .val t, .val lang, .undef, .undef, .undef, .js (.int pid)⟩ s).trace =
        [.selectPerformers] ∧
      Pg.postLyric ⟨.js (.int pid), .val t, .undef, .undef, .undef, .undef⟩ ps =
        (⟨409, .errB "Unknown performerId (FK violation)"⟩, ps) := by
  have hins : Pg.insertLyric ps
      ⟨ps.nextLyricId, pid, t, none, none, none, none⟩ = none := by
    have : ps.performers.any (fun p => p.performerId == pid) = false := by
      simp only [List.any_eq_true, beq_iff_eq, Bool.eq_false_iff, ne_eq]
      intro ⟨p, hp, hpe⟩
      exact hpgmiss p hp hpe
    simp [Pg.insertLyric, this]
  have htne : t ≠ "" := by
    have h := ht
    simp only [strInvalid, Bool.or_eq_false_iff, beq_eq_false_iff_ne] at h
    exact h.1
  have hout : postLyric ⟨.val w, .val t, .val lang, .undef, .undef, .undef, .js (.int pid)⟩ s =
      ⟨⟨404, .msg "Performer bestaat niet"⟩, s, [.selectPerformers]⟩ := by
    simp [postLyric, hw, ht, hlang, JNum.asInt, hmiss]
  refine ⟨?_, ?_, ?_, ?_⟩
  · rw [hout]
  · rw [hout]
  · rw [hout]
  · simp [Pg.postLyric, JNum.truthy, JNum.asInt, JStr.truthy, JStr.str, JStr.orNull,
      Pg.JBool.orNull, hnz, htne, hins]

/-- C6, witness: the theorem at performer id 99, absent from both concrete
stores. -/
theorem c6_unknown_performer_witness :
    (postLyric ⟨.val "x", .val "y", .val "en", .undef, .undef, .undef,
        .js (.int 99)⟩ exStore2).resp = ⟨404, .msg "Performer bestaat niet"⟩ ∧
      (postLyric ⟨.val "x", .val "y", .val "en", .undef, .undef, .undef,
        .js (.int 99)⟩ exStore2).store = exStore2 ∧
      (postLyric ⟨.val "x", .val "y", .val "en", .undef, .undef, .undef,
        .js (.int 99)⟩ exStore2).trace = [.selectPerformers] ∧
      Pg.postLyric ⟨.js (.int 99), .val "y", .undef, .undef, .undef, .undef⟩ exPgStore =
        (⟨409, .errB "Unknown performerId (FK violation)"⟩, exPgStore) :=
  c6_unknown_performer exStore2 exPgStore 99 "x" "y" "en"
    (by decide) (by decide) (by decide) (by decide) (by decide) (by decide)

/-- C7: under the restrictive (SQLite) schema, deleting a performer that is
referenced by at least one lyric answers 409 and leaves the store exactly as
it was — the performer row and every lyric row remain present. -/
theorem c7_delete_referenced (s : Store) (pid : Int) (p : Performer) (l : Lyric)
    (hp : p ∈ s.performers) (hpid : p.performerId = pid)
    (hl : l ∈ s.lyrics) (hlp : l.performerId = pid) :
    (deletePerformer (.int pid) s).resp =
        ⟨409, .msg "Kan performer niet verwijderen: er zijn nog gekoppelde lyrics"⟩ ∧
      (deletePerformer (.int pid) s).store = s ∧
      p ∈ (deletePerformer (.int pid) s).store.performers ∧
      l ∈ (deletePerformer (.int pid) s).store.lyrics := by
  have hcond : (s.performers.filter (fun q => JsNum.eqId (.int pid) q.performerId)).any
      (fun q => s.lyrics.any (fun l' => l'.performerId == q.performerId)) = true := by
    rw [List.any_eq_true]
    refine ⟨p, ?_, ?_⟩
    · rw [List.mem_filter]
      exact ⟨hp, by simp [JsNum.eqId, hpid]⟩
    · rw [List.any_eq_true]
      exact ⟨l, hl, by simp [hlp, hpid]⟩
  have hout : deletePerformer (.int pid) s =
      ⟨⟨409, .msg "Kan performer niet verwijderen: er zijn nog gekoppelde lyrics"⟩, s,
        [.deletePerformers]⟩ := by
    simp [deletePerformer, hcond]
  rw [hout]
  exact ⟨rfl, rfl, hp, hl⟩

/-- C7, witness: the theorem on the concrete store, performer 1 referenced by
lyric 1. -/
theorem c7_delete_referenced_witness :
    (deletePerformer (.int 1) exStore2).resp =
        ⟨409, .msg "Kan performer niet verwijderen: er zijn nog gekoppelde lyrics"⟩ ∧
      (deletePerformer (.int 1) exStore2).store = exStore2 ∧
      (⟨1, "Nirvana", some "Grunge"⟩ : Performer) ∈ (deletePerformer (.int 1) exStore2).store.performers ∧
      (⟨1, "Here we are now, entertain us...", "Smells Like Teen Spirit", "en",
        none, none, none, 1⟩ : Lyric) ∈ (deletePerformer (.int 1) exStore2).store.lyrics :=
  c7_delete_referenced exStore2 1 ⟨1, "Nirvana", some "Grunge"⟩
    ⟨1, "Here we are now, entertain us...", "Smells Like Teen Spirit", "en", none, none, none, 1⟩
    (by decide) (by decide) (by decide) (by decide)

/-- C8, counterexample: the Postgres variant's catch-all error middleware puts
the underlying error's message text into the client-facing body (`detail`
field), and its response varies with the internal error — the body is not a
fixed generic message. -/
theorem c8_counterexample :
    (Pg.errorHandler exErr).body =
        .errDetail "Internal Server Error" "connect ECONNREFUSED db.internal:5432" ∧
      Pg.errorHandler exErr ≠ Pg.errorHandler ⟨some "other failure", "other failure"⟩ := by
  decide

/-- C8, amended: the SQLite variant's catch-all middleware does answer every
unclassified failure with a 500 carrying only the fixed generic message,
independent of the error; the Postgres variant's middleware answers 500 but
additionally exposes `err.message` (or `String(err)`) as a `detail` field. -/
theorem c8_amended (e e' : JsError) :
    errorHandlerSqlite e = ⟨500, .msg "Internal server error"⟩ ∧
      errorHandlerSqlite e = errorHandlerSqlite e' ∧
      (Pg.errorHandler e).status = 500 ∧
      (Pg.errorHandler e).body =
        .errDetail "Internal Server Error" (e.message.getD e.asString) := by
  exact ⟨rfl, rfl, rfl, rfl⟩

/-- A keyed `UPDATE … WHERE LyricId = ?` followed by the same keyed `SELECT`
finds the updated image of the previously found row, because the update
preserves the key column. -/
theorem find?_keyed_update (ls : List Lyric) (idp : JsNum) (ex : Lyric)
    (g : Lyric → Lyric) (hg : ∀ l, (g l).lyricId = l.lyricId)
    (hfind : ls.find? (fun l => idp.eqId l.lyricId) = some ex) :
    (ls.map (fun l => if idp.eqId l.lyricId then g l else l)).find?
        (fun l => idp.eqId l.lyricId) = some (g ex) := by
  rw [List.find?_map]
  have hpre : (fun l => idp.eqId (if idp.eqId l.lyricId then g l else l).lyricId) =
      fun l : Lyric => idp.eqId l.lyricId := by
    funext l
    by_cases h : idp.eqId l.lyricId = true
    · simp [h, hg]
    · simp only [Bool.not_eq_true] at h
      simp [h]
  have hgoal : ((fun l => idp.eqId l.lyricId) ∘
      fun l => if idp.eqId l.lyricId then g l else l) =
      fun l : Lyric => idp.eqId l.lyricId := hpre
  rw [hgoal, hfind]
  have hex := List.find?_some hfind
  simp only at hex
  simp [hex]

/-- C9: for an existing lyric and an update body whose merged field values
pass validation and whose (merged) performer reference resolves,
`PUT /api/lyrics/:id` answers 200 with the merged row; the stored row for that
id becomes exactly the merged row (fields absent from the body keep the
previous stored value, fields present in the body — including the optional
link fields — are replaced), and every other lyric row is untouched. -/
theorem c9_put_lyric_merge (s : Store) (id pid : Int) (b : LyricBody)
    (ex : Lyric) (q : Performer)
    (hex : findLyricJ s (.int id) = some ex)
    (hw : strInvalid 500 (mergeLyric ex b).words = false)
    (ht : strInvalid 100 (mergeLyric ex b).songTitle = false)
    (hlang : (mergeLyric ex b).language.truthy = true)
    (hpid : (mergeLyric ex b).performerId.asInt = some pid)
    (hq : findPerformer s pid = some q) :
    (putLyric (.int id) b s).resp =
        ⟨200, .lyricB (updatedLyric ex (mergeLyric ex b) pid)⟩ ∧
      findLyricJ (putLyric (.int id) b s).store (.int id) =
        some (updatedLyric ex (mergeLyric ex b) pid) ∧
      (∀ l ∈ s.lyrics, l.lyricId ≠ id → l ∈ (putLyric (.int id) b s).store.lyrics) ∧
      (b.words = .undef → (updatedLyric ex (mergeLyric ex b) pid).words = ex.words) ∧
      (∀ wv, b.words = .val wv → (updatedLyric ex (mergeLyric ex b) pid).words = wv) ∧
      (b.songTitle = .undef →
        (updatedLyric ex (mergeLyric ex b) pid).songTitle = ex.songTitle) ∧
      (b.spotLink = .undef →
        (updatedLyric ex (mergeLyric ex b) pid).spotLink = ex.spotLink) ∧
      (∀ sv, b.spotLink = .val sv →
        (updatedLyric ex (mergeLyric ex b) pid).spotLink = some sv) ∧
      (b.spotLink = .null → (updatedLyric ex (mergeLyric ex b) pid).spotLink = none) ∧
      (b.performerId = .undef → pid = ex.performerId) := by
  have hfind2 : findLyricJ
      { s with lyrics := s.lyrics.map (fun l =>
          if JsNum.eqId (.int id) l.lyricId then updatedLyric l (mergeLyric ex b) pid else l) }
      (.int id) = some (updatedLyric ex (mergeLyric ex b) pid) :=
    find?_keyed_update s.lyrics (.int id) ex
      (fun l => updatedLyric l (mergeLyric ex b) pid) (fun _ => rfl) hex
  have hout : putLyric (.int id) b s =
      ⟨⟨200, .lyricB (updatedLyric ex (mergeLyric ex b) pid)⟩,
        { s with lyrics := s.lyrics.map (fun l =>
            if JsNum.eqId (.int id) l.lyricId then updatedLyric l (mergeLyric ex b) pid else l) },
        [.selectLyrics, .selectPerformers, .updateLyrics, .selectLyrics]⟩ := by
    simp only [putLyric, hex, hw, ht, hlang, hpid, hq, Bool.false_eq_true,
      Bool.true_eq_false, if_false, Bool.not_eq_true', hfind2]
  refine ⟨by rw [hout], by rw [hout]; exact hfind2, ?_, ?_, ?_, ?_, ?_, ?_, ?_, ?_⟩
  · intro l hl hne
    rw [hout]
    have hne' : JsNum.eqId (.int id) l.lyricId = false := by
      simp [JsNum.eqId]
      omega
    have himg : (if JsNum.eqId (.int id) l.lyricId
        then updatedLyric l (mergeLyric ex b) pid else l) = l := by
      rw [hne']
      rfl
    exact himg ▸ List.mem_map_of_mem _ hl
  · intro hb
    simp [updatedLyric, mergeLyric, hb, JStr.mergeStr, JStr.str]
  · intro wv hb
    simp [updatedLyric, mergeLyric, hb, JStr.mergeStr, JStr.str]
  · intro hb
    simp [updatedLyric, mergeLyric, hb, JStr.mergeStr, JStr.str]
  · intro hb
    cases hsp : ex.spotLink with
    | none => simp [updatedLyric, mergeLyric, hb, hsp, JStr.mergeOpt, JStr.orNull]
    | some v => simp [updatedLyric, mergeLyric, hb, hsp, JStr.mergeOpt, JStr.orNull]
  · intro sv hb
    simp [updatedLyric, mergeLyric, hb, JStr.mergeOpt, JStr.orNull]
  · intro hb
    simp [updatedLyric, mergeLyric, hb, JStr.mergeOpt, JStr.orNull]
  · intro hb
    rw [show (mergeLyric ex b).performerId = .js (.int ex.performerId) by
      simp [mergeLyric, hb, JNum.mergeInt]] at hpid
    simp only [JNum.asInt, Option.some.injEq] at hpid
    exact hpid.symm

/-- C9, witness: updating lyric 1 of the concrete store with a body that sets
`words`, nulls `spotLink`, and leaves every other field absent keeps the
previous title/language/performer and stores the merged row. -/
theorem c9_put_lyric_merge_witness :
    (putLyric (.int 1)
        ⟨.val "New words", .undef, .undef, .null, .undef, .undef, .undef⟩ exStore2).resp =
      ⟨200, .lyricB ⟨1, "New words", "Smells Like Teen Spirit", "en", none, none, none, 1⟩⟩ :=
  (c9_put_lyric_merge exStore2 1 1
    ⟨.val "New words", .undef, .undef, .null, .undef, .undef, .undef⟩
    ⟨1, "Here we are now, entertain us...", "Smells Like Teen Spirit", "en", none, none, none, 1⟩
    ⟨1, "Nirvana", some "Grunge"⟩
    (by decide) (by decide) (by decide) (by decide) (by decide) (by decide)).1

/-- C10: when every lyric's performer reference resolves (the referential
integrity both variants maintain) and the requested id matches no performer,
`GET /api/performers/:id/lyrics` answers 200 with the empty array in both
variants — indistinguishable from a performer that exists but has no
lyrics, never a 404. -/
theorem c10_missing_performer (s : Store) (ps : Pg.Store) (pid : Int)
    (hint : ∀ l ∈ s.lyrics, ∃ p ∈ s.performers, p.performerId = l.performerId)
    (hmiss : findPerformer s pid = none)
    (hintPg : ∀ l ∈ ps.lyrics, ∃ p ∈ ps.performers, p.performerId = l.performerId)
    (hmissPg : ∀ p ∈ ps.performers, p.performerId ≠ pid) :
    getPerformerLyrics (.int pid) s = ⟨200, .lyricList []⟩ ∧
      Pg.getPerformerLyrics pid ps = ⟨200, .pgLyricList []⟩ := by
  constructor
  · have h1 : s.lyrics.filter (fun l => JsNum.eqId (.int pid) l.performerId) = [] := by
      rw [List.filter_eq_nil_iff]
      intro l hl hmatch
      have hpe : pid = l.performerId := by simpa [JsNum.eqId] using hmatch
      obtain ⟨p, hp, hpp⟩ := hint l hl
      simp only [findPerformer, List.find?_eq_none] at hmiss
      exact absurd (by simp [hpp, hpe]) (hmiss p hp)
    simp [getPerformerLyrics, h1]
  · have h2 : ps.lyrics.filter (fun l => l.performerId == pid) = [] := by
      rw [List.filter_eq_nil_iff]
      intro l hl hmatch
      have hpe : l.performerId = pid := by simpa using hmatch
      obtain ⟨p, hp, hpp⟩ := hintPg l hl
      exact hmissPg p hp (hpp.trans hpe)
    simp [Pg.getPerformerLyrics, h2]

/-- C10, witness: id 99 resolves to no performer in either concrete store;
both handlers answer 200 with the empty array. -/
theorem c10_missing_performer_witness :
    getPerformerLyrics (.int 99) exStore2 = ⟨200, .lyricList []⟩ ∧
      Pg.getPerformerLyrics 99 exPgStore = ⟨200, .pgLyricList []⟩ :=
  c10_missing_performer exStore2 exPgStore 99
    (by decide) (by decide) (by decide) (by decide)
